import Mathlib

/-!
Verification development for `repo-context-generator.py` (v1.1.0), a
single-file Python tool that assembles a bounded textual summary of a
repository under a global character budget (`max_total_size`) and a
per-file byte budget (`max_file_size`).

The definitions below are a shallow embedding of the Python source.
Filesystem discovery (directory walks, glob expansion, `git` calls) is an
external collaborator in the tool's design; its results enter the model as
explicit data (`FSFile` records and candidate lists inside `RepoData`).
Everything the Python file itself computes from those results — skip
filters, size checks, truncation, budget accounting, section assembly,
candidate caps, rendering — is translated function by function.

Python's float checkpoint comparisons (`total_size > max * 0.8` etc.) are
modelled as exact rational comparisons on naturals
(`5 * total > 4 * max`, ...); no claim depends on float rounding at the
threshold boundary.
-/

/-- Does `hay` start with `needle`? (helper for the substring test). -/
def listStartsWith : List Char → List Char → Bool
  | _, [] => true
  | [], _ :: _ => false
  | a :: as, b :: bs => a == b && listStartsWith as bs

/-- Does `hay` contain `needle` as a contiguous sublist?
Models Python's `needle in haystack` for strings. -/
def listHasSub : List Char → List Char → Bool
  | hay, needle =>
    if listStartsWith hay needle then true
    else
      match hay with
      | [] => false
      | _ :: t => listHasSub t needle

/-- Python's `needle in haystack` substring test on strings. -/
def strContains (haystack needle : String) : Bool :=
  listHasSub haystack.data needle.data

/-- Insert thousands separators into a reversed digit list
(helper for `commaFormat`). -/
def commaFormatAux : List Char → List Char
  | a :: b :: c :: d :: rest => a :: b :: c :: ',' :: commaFormatAux (d :: rest)
  | l => l

/-- Python's `f"{n:,}"` formatting of a natural number: decimal digits with
a comma every three digits from the right. -/
def commaFormat (n : Nat) : String :=
  String.mk ((commaFormatAux (toString n).data.reverse).reverse)

/-- Split a character list at every occurrence of `sep`, keeping empty
pieces (helper for `pySplitOnChar`). -/
def splitCharAux (sep : Char) : List Char → List (List Char)
  | [] => [[]]
  | c :: rest =>
    if c = sep then [] :: splitCharAux sep rest
    else
      match splitCharAux sep rest with
      | [] => [[c]]
      | h :: t => (c :: h) :: t

/-- Python's `str.split(sep)` for a one-character separator: split at every
occurrence, keeping empty pieces (`''.split(sep) == ['']`,
`'a\n'.split('\n') == ['a', '']`). -/
def pySplitOnChar (sep : Char) (s : String) : List String :=
  (splitCharAux sep s.data).map String.mk

/-- A file as the generator sees it.  `path` is `str(file_path)` (absolute),
`rel` is `file_path.relative_to(repo_path)` as a string, `name`/`suffix` are
`Path.name`/`Path.suffix`, `size` is `stat().st_size`, `isFile` is
`is_file()`, `content` is the result of
`read_text(encoding='utf-8', errors='ignore')` (`none` when reading raises),
and `err` is `str(e)` for the raised exception. -/
structure FSFile where
  path : String
  rel : String
  name : String
  suffix : String
  size : Nat
  isFile : Bool
  content : Option String
  err : String
  deriving DecidableEq

/-- The two substrings checked by `get_file_content` (and by the glob branch
of the Key Files loop): `['.terragrunt-cache', '.terraform']`. -/
def skipSubstrings : List String := [".terragrunt-cache", ".terraform"]

/-- The placeholder `f"(File too large: {file_size:,} bytes)"`. -/
def tooLargeMsg (size : Nat) : String :=
  "(File too large: " ++ commaFormat size ++ " bytes)"

/-- The placeholder `f"(Error reading file: {str(e)})"`. -/
def readErrorMsg (e : String) : String :=
  "(Error reading file: " ++ e ++ ")"

/-- `RepoContextGenerator.get_file_content(file_path, max_lines)`.
Returns `none` exactly where Python returns `None` (the skip-substring
check), otherwise the bounded text rendering. -/
def get_file_content (max_file_size max_lines : Nat) (f : FSFile) : Option String :=
  if skipSubstrings.any (fun sk => strContains f.path sk) then
    none
  else if f.size > max_file_size then
    some (tooLargeMsg f.size)
  else
    match f.content with
    | none => some (readErrorMsg f.err)
    | some content =>
      let lines := pySplitOnChar '\n' content
      if lines.length > max_lines then
        some (String.intercalate "\n" (lines.take max_lines) ++
          "\n\n... (truncated, " ++ toString (lines.length - max_lines) ++ " more lines)")
      else
        some content

/-- The mutable generator state: `self.total_size` and
`self.context_parts`. -/
structure GenState where
  total_size : Nat
  context_parts : List String
  deriving DecidableEq

/-- `RepoContextGenerator.add_section(title, content)`: appends
`f"\n## {title}\n"` and `content` to `context_parts`, and adds
`len(title) + len(content)` to `total_size`. -/
def add_section (st : GenState) (title content : String) : GenState :=
  { total_size := st.total_size + title.length + content.length,
    context_parts := st.context_parts ++ ["\n## " ++ title ++ "\n", content] }

/-- The `ext_map` dictionary of `_get_language_for_file`. -/
def ext_map : List (String × String) :=
  [(".py", "python"), (".js", "javascript"), (".ts", "typescript"),
   (".java", "java"), (".go", "go"), (".rs", "rust"), (".rb", "ruby"),
   (".php", "php"), (".cs", "csharp"), (".cpp", "cpp"), (".c", "c"),
   (".h", "c"), (".hpp", "cpp"), (".swift", "swift"), (".kt", "kotlin"),
   (".r", "r"), (".R", "r"), (".sql", "sql"), (".sh", "bash"),
   (".yml", "yaml"), (".yaml", "yaml"), (".json", "json"),
   (".xml", "xml"), (".html", "html"), (".css", "css"),
   (".md", "markdown"), (".rst", "rst"), (".tex", "latex"),
   (".tf", "hcl"), (".hcl", "hcl"), (".tfvars", "hcl"),
   (".dockerfile", "dockerfile"), (".Dockerfile", "dockerfile"),
   (".gradle", "gradle"), (".Makefile", "makefile"), (".makefile", "makefile"),
   (".toml", "toml"), (".ini", "ini"), (".cfg", "ini")]

/-- `RepoContextGenerator._get_language_for_file(file_path)`. -/
def _get_language_for_file (f : FSFile) : String :=
  if f.name = "Dockerfile" ∨ f.name = "Makefile" ∨ f.name = "Jenkinsfile" then
    f.name.toLower
  else
    ((ext_map.lookup f.suffix.toLower).getD "text")

/-- `RepoContextGenerator._add_file_content(file_path)`: render the file via
`get_file_content` (with its default `max_lines = 50`); if the result is
truthy and `total_size + len(content) < max_total_size`, append the
`### relative_path` header and the fenced content and add
`len(content) + 100` to `total_size`; otherwise leave the state unchanged. -/
def _add_file_content (max_total_size max_file_size : Nat) (st : GenState) (f : FSFile) : GenState :=
  match get_file_content max_file_size 50 f with
  | none => st
  | some content =>
    if content ≠ "" ∧ st.total_size + content.length < max_total_size then
      { total_size := st.total_size + content.length + 100,
        context_parts := st.context_parts ++
          ["\n### " ++ f.rel ++ "\n",
           "```" ++ _get_language_for_file f ++ "\n" ++ content ++ "\n```\n"] }
    else st

/-- The `self.skip_dirs` set of `RepoContextGenerator.__init__` (a Python
set; listed here in source order — only membership is ever used). -/
def skip_dirs : List String :=
  [".git", ".svn", ".hg", "node_modules", "vendor",
   "venv", "env", ".env", "__pycache__", ".pytest_cache",
   "target", "build", "dist", "out", ".terraform",
   ".terragrunt-cache", "coverage", ".next", ".nuxt",
   ".idea", ".vscode", "logs", "tmp", "temp",
   ".aws-sam", ".serverless", "cdk.out"]

/-- The `self.skip_extensions` set of `RepoContextGenerator.__init__`. -/
def skip_extensions : List String :=
  [".pyc", ".pyo", ".pyd", ".so", ".dll", ".dylib",
   ".class", ".jar", ".war", ".exe", ".bin",
   ".jpg", ".jpeg", ".png", ".gif", ".ico", ".svg", ".webp",
   ".mp3", ".mp4", ".avi", ".mov", ".pdf", ".doc", ".docx",
   ".zip", ".tar", ".gz", ".rar", ".7z", ".bz2",
   ".log", ".bak", ".swp", ".tmp", ".cache", ".lock",
   ".min.js", ".min.css", ".map", ".tfstate", ".tfplan"]

/-- One entry of the `self.important_files` list as the Key Files loop sees
it: the literal `"STATUS.md"` entry (skipped inside the loop), a pattern
containing `'*'` together with its glob result, or an exact name together
with the file when it exists. -/
inductive KeyItem where
  | statusPat : KeyItem
  | globPat (ms : List FSFile) : KeyItem
  | exactPat (found : Option FSFile) : KeyItem
  deriving DecidableEq

/-- The `source_patterns` dictionary of `_add_source_samples`. -/
def source_patterns : List (String × List String) :=
  [("python", ["**/*.py"]),
   ("javascript", ["**/*.js", "**/*.jsx"]),
   ("typescript", ["**/*.ts", "**/*.tsx"]),
   ("java", ["**/*.java"]),
   ("go", ["**/*.go"]),
   ("rust", ["**/*.rs"]),
   ("csharp", ["**/*.cs"]),
   ("terraform", ["**/*.tf", "**/*.hcl"]),
   ("kubernetes", ["**/*.yaml", "**/*.yml"])]

/-- The skip markers of `_add_source_samples`:
`['test', 'vendor', 'node_modules', '__pycache__', '.terragrunt-cache', '.terraform']`. -/
def sampleSkipMarkers : List String :=
  ["test", "vendor", "node_modules", "__pycache__", ".terragrunt-cache", ".terraform"]

/-- The per-file filter of `_add_source_samples`: no skip marker occurs as a
substring of the path, the path is a regular file, and `st_size < 50000`. -/
def sampleFilter (f : FSFile) : Bool :=
  !(sampleSkipMarkers.any (fun sk => strContains f.path sk)) && f.isFile && decide (f.size < 50000)

/-- Insertion step for `sortByPath`. -/
def insertByPath (f : FSFile) : List FSFile → List FSFile
  | [] => [f]
  | g :: gs => if f.path ≤ g.path then f :: g :: gs else g :: insertByPath f gs

/-- Python's `sorted(files)` on `Path` objects, which compares by the path
string (CPython compares `PurePath` values via their string form). -/
def sortByPath : List FSFile → List FSFile
  | [] => []
  | f :: fs => insertByPath f (sortByPath fs)

/-- The external inputs of one run: everything the generator reads from the
filesystem, `git`, and the clock.  Candidate lists carry glob/walk results
in the enumeration order the Python code iterates them. -/
structure RepoData where
  repo_name : String
  repo_path_str : String
  project_types : List String
  structure_text : String
  git_section : Option String
  package_info_json : Option String
  entry_points : List (String × String)
  status_file : Option FSFile
  important_items : List KeyItem
  terraform_root : List FSFile
  terraform_modules : List FSFile
  terraform_accounts : List FSFile
  policy_glob : List FSFile
  config_glob : List FSFile
  source_globs : List (String × List FSFile)

/-- `RepoContextGenerator._find_terraform_files`: root
`terragrunt.hcl`/HCL/`*.tf` candidates, then module files, then
`accounts/**/terragrunt.hcl` matches filtered by the
`'.terragrunt-cache' not in str(tg_file)` test, capped at 30. -/
def _find_terraform_files (d : RepoData) : List FSFile :=
  (d.terraform_root ++ d.terraform_modules ++
    d.terraform_accounts.filter (fun f => !(strContains f.path ".terragrunt-cache"))).take 30

/-- `RepoContextGenerator._find_policy_files`: `policies/**` glob matches
with `'.git' not in str(f)`, capped at 15. -/
def _find_policy_files (d : RepoData) : List FSFile :=
  (d.policy_glob.filter (fun f => !(strContains f.path ".git"))).take 15

/-- `RepoContextGenerator._find_config_files`: config-pattern glob matches
with no `skip_dirs` name occurring as a substring of the path string,
capped at 20. -/
def _find_config_files (d : RepoData) : List FSFile :=
  (d.config_glob.filter (fun f => !(skip_dirs.any (fun sk => strContains f.path sk)))).take 20

/-- The glob branch of `find_entry_points` (lines 307-311): the first 3 glob
matches, kept when no `skip_dirs` name occurs as a substring of the match's
path string. -/
def entry_point_glob_matches (ms : List FSFile) : List FSFile :=
  (ms.take 3).filter (fun m => !(skip_dirs.any (fun sk => strContains m.path sk)))

/-- The truncation notice appended by the Key Files loop:
`"\n*(Reached size limit, some files omitted)*\n"`. -/
def sizeNotice : String := "\n*(Reached size limit, some files omitted)*\n"

/-- The per-match body of the glob branch of the Key Files loop: add the
file unless `'.terragrunt-cache'` or `'.terraform'` occurs in its path. -/
def keyGlobStep (mt mf : Nat) (s : GenState) (f : FSFile) : GenState :=
  if !(skipSubstrings.any (fun sk => strContains f.path sk)) then
    _add_file_content mt mf s f
  else s

/-- The `for pattern in self.important_files` loop of `generate_context`:
before each pattern, if `total_size > max_total_size * 0.8` the notice is
appended and the loop breaks; the `"STATUS.md"` entry is skipped; a glob
pattern contributes its first 3 matches, each filtered by the
`'.terragrunt-cache'`/`'.terraform'` substring test; an exact name
contributes the file when it exists. -/
def keyFilesLoop (mt mf : Nat) : List KeyItem → GenState → GenState
  | [], st => st
  | item :: rest, st =>
    if 5 * st.total_size > 4 * mt then
      { st with context_parts := st.context_parts ++ [sizeNotice] }
    else
      match item with
      | .statusPat => keyFilesLoop mt mf rest st
      | .globPat ms =>
        keyFilesLoop mt mf rest ((ms.take 3).foldl (keyGlobStep mt mf) st)
      | .exactPat found =>
        match found with
        | some f => keyFilesLoop mt mf rest (_add_file_content mt mf st f)
        | none => keyFilesLoop mt mf rest st

/-- The terraform-file loop of `generate_context`: before each file, break
when `total_size > max_total_size * 0.9`. -/
def terraformLoop (mt mf : Nat) : List FSFile → GenState → GenState
  | [], st => st
  | f :: rest, st =>
    if 10 * st.total_size > 9 * mt then st
    else terraformLoop mt mf rest (_add_file_content mt mf st f)

/-- The policy-file loop of `generate_context`: before each file, break when
`total_size > max_total_size * 0.95`. -/
def policyLoop (mt mf : Nat) : List FSFile → GenState → GenState
  | [], st => st
  | f :: rest, st =>
    if 20 * st.total_size > 19 * mt then st
    else policyLoop mt mf rest (_add_file_content mt mf st f)

/-- The config-file loop of `generate_context`: before each file, break when
`total_size > max_total_size * 0.9`. -/
def configLoop (mt mf : Nat) : List FSFile → GenState → GenState
  | [], st => st
  | f :: rest, st =>
    if 10 * st.total_size > 9 * mt then st
    else configLoop mt mf rest (_add_file_content mt mf st f)

/-- The innermost file loop of `_add_source_samples`, run over the
concatenation of all sample groups: before each file, `return` (stop
everything) when `total_size > max_total_size * 0.95`. -/
def samplesLoop (mt mf : Nat) : List FSFile → GenState → GenState
  | [], st => st
  | f :: rest, st =>
    if 20 * st.total_size > 19 * mt then st
    else samplesLoop mt mf rest (_add_file_content mt mf st f)

/-- One sample group of `_add_source_samples`: the glob result for a source
pattern, filtered by `sampleFilter`, sorted, capped at 3. -/
def sampleGroupFiles (d : RepoData) (pat : String) : List FSFile :=
  (sortByPath (((d.source_globs.lookup pat).getD []).filter sampleFilter)).take 3

/-- The sample groups `_add_source_samples` iterates: for each of the first
2 detected project types that occurs in `source_patterns`, one group per
source pattern of that type. -/
def sampleCandidates (d : RepoData) : List (List FSFile) :=
  (d.project_types.take 2).flatMap
    (fun t =>
      match source_patterns.lookup t with
      | none => []
      | some pats => pats.map (fun p => sampleGroupFiles d p))

/-- `RepoContextGenerator._add_source_samples(project_types)`: no-op on an
empty type list; otherwise add the `Source Code Samples` section header and
run the sample-file loop over all groups. -/
def _add_source_samples (mt mf : Nat) (d : RepoData) (st : GenState) : GenState :=
  if d.project_types = [] then st
  else
    samplesLoop mt mf (sampleCandidates d).flatten (add_section st "Source Code Samples" "")


/-- The part of the header f-string before the `{datetime.now().strftime(...)}`
interpolation. -/
def headerLeader : String :=
  "# Repository Context\n\n**Generated by:** Repo Context Generator v1.1.0  \n**Generated at:** "

/-- The part of the header f-string after the timestamp interpolation. -/
def headerTrailer (d : RepoData) : String :=
  "  \n**Repository:** " ++ d.repo_name ++
  "  \n**Path:** " ++ d.repo_path_str ++
  "  \n**Detected Types:** " ++
  (if d.project_types = [] then "Generic" else String.intercalate ", " d.project_types) ++
  "\n\n---\n\nThis context file provides a comprehensive overview of the repository structure and contents\nfor use with AI assistants.\n\n"

/-- The header block of `generate_context` for a given timestamp string. -/
def mkHeader (d : RepoData) (timestamp : String) : String :=
  headerLeader ++ timestamp ++ headerTrailer d

/-- The footer
`f"\n---\n\n*Context generation complete. Total size: {self.total_size:,} characters*\n"`. -/
def footerText (total : Nat) : String :=
  "\n---\n\n*Context generation complete. Total size: " ++ commaFormat total ++ " characters*\n"

/-- The Project Structure section of `generate_context`. -/
def structStep (d : RepoData) (st : GenState) : GenState :=
  add_section st "Project Structure" ("```\n" ++ d.structure_text ++ "\n```")

/-- The Git Information section of `generate_context` (emitted only when
`git_info` is non-empty and error-free). -/
def gitStep (d : RepoData) (st : GenState) : GenState :=
  match d.git_section with
  | some g => add_section st "Git Information" g
  | none => st

/-- The Package Information section of `generate_context` (emitted only
when `package_info` is non-empty). -/
def pkgStep (d : RepoData) (st : GenState) : GenState :=
  match d.package_info_json with
  | some p => add_section st "Package Information" ("```json\n" ++ p ++ "\n```")
  | none => st

/-- The Entry Points section of `generate_context` (emitted only when
`find_entry_points()` returned something). -/
def entryStep (d : RepoData) (st : GenState) : GenState :=
  if d.entry_points = [] then st
  else add_section st "Entry Points"
    (String.intercalate "\n"
      (d.entry_points.map (fun lf => "- **" ++ lf.1 ++ ":** `" ++ lf.2 ++ "`")))

/-- The metadata sections of `generate_context` (everything between the
header and the Key Files section): Project Structure, Git Information,
Package Information and Entry Points.  None of them is budget-gated. -/
def sectionsPhase (d : RepoData) (st : GenState) : GenState :=
  entryStep d (pkgStep d (gitStep d (structStep d st)))

/-- The initial state of `generate_context` after the header append (the
header is appended to `context_parts` without touching `total_size`)
followed by the metadata sections. -/
def headerAndSections (d : RepoData) (timestamp : String) : GenState :=
  sectionsPhase d { total_size := 0, context_parts := [mkHeader d timestamp] }

/-- The `STATUS.md` special case of the Key Files phase: added first when
it exists and `total_size < max_total_size * 0.8`. -/
def statusStep (mt mf : Nat) (d : RepoData) (st : GenState) : GenState :=
  match d.status_file with
  | some sf => if 5 * st.total_size < 4 * mt then _add_file_content mt mf st sf else st
  | none => st

/-- The Key Files phase of `generate_context`: the section header, then the
`STATUS.md` special case, then the pattern loop. -/
def keyFilesPhase (mt mf : Nat) (d : RepoData) (st : GenState) : GenState :=
  keyFilesLoop mt mf d.important_items (statusStep mt mf d (add_section st "Key Files" ""))

/-- The terraform part of the terraform/policy branch: when the candidate
list is non-empty, the section header and the terraform loop. -/
def tfLoopStep (mt mf : Nat) (d : RepoData) (st : GenState) : GenState :=
  if _find_terraform_files d ≠ [] then
    terraformLoop mt mf (_find_terraform_files d)
      (add_section st "Terraform/Terragrunt Configuration" "")
  else st

/-- The policy part of the terraform/policy branch: gated by a non-empty
candidate list and `total_size < max_total_size * 0.95`. -/
def policyStep (mt mf : Nat) (d : RepoData) (st : GenState) : GenState :=
  if _find_policy_files d ≠ [] ∧ 20 * st.total_size < 19 * mt then
    policyLoop mt mf (_find_policy_files d) (add_section st "Policy Files" "")
  else st

/-- The body of the `'terraform' in project_types and total_size < 0.85 * max`
branch of `generate_context`: the terraform section and loop, then —
still inside that branch — the policy section and loop. -/
def terraformPolicyBody (mt mf : Nat) (d : RepoData) (st : GenState) : GenState :=
  policyStep mt mf d (tfLoopStep mt mf d st)

/-- The terraform/policy phase of `generate_context`, with its entry gate
`'terraform' in project_types and self.total_size < self.max_total_size * 0.85`. -/
def terraformPhase (mt mf : Nat) (d : RepoData) (st : GenState) : GenState :=
  if "terraform" ∈ d.project_types ∧ 20 * st.total_size < 17 * mt then
    terraformPolicyBody mt mf d st
  else st

/-- The Configuration Files phase of `generate_context`: gated by
`config_files and self.total_size < self.max_total_size * 0.9`, it adds the
section header and iterates `config_files[:10]`. -/
def configPhase (mt mf : Nat) (d : RepoData) (st : GenState) : GenState :=
  if _find_config_files d ≠ [] ∧ 10 * st.total_size < 9 * mt then
    configLoop mt mf ((_find_config_files d).take 10) (add_section st "Configuration Files" "")
  else st

/-- The Source Code Samples phase of `generate_context`: gated by
`self.total_size < self.max_total_size * 0.9`. -/
def samplesPhase (mt mf : Nat) (d : RepoData) (st : GenState) : GenState :=
  if 10 * st.total_size < 9 * mt then _add_source_samples mt mf d st else st

/-- The whole assembly pipeline between the header append and the footer
append, as one state transformer. -/
def pipelineBody (mt mf : Nat) (d : RepoData) (st : GenState) : GenState :=
  samplesPhase mt mf d
    (configPhase mt mf d
      (terraformPhase mt mf d
        (keyFilesPhase mt mf d
          (sectionsPhase d st))))

/-- `RepoContextGenerator.generate_context()` up to the final `''.join`:
the full assembly pipeline, ending with the footer appended to
`context_parts` (without touching `total_size`). -/
def generate_context (mt mf : Nat) (d : RepoData) (timestamp : String) : GenState :=
  let st := pipelineBody mt mf d { total_size := 0, context_parts := [mkHeader d timestamp] }
  { st with context_parts := st.context_parts ++ [footerText st.total_size] }

/-- Python's `''.join(parts)`. -/
def joinParts : List String → String
  | [] => ""
  | p :: ps => p ++ joinParts ps

/-- The final artifact of one run: `''.join(self.context_parts)`. -/
def generate_output (mt mf : Nat) (d : RepoData) (timestamp : String) : String :=
  joinParts (generate_context mt mf d timestamp).context_parts

/-- A state transformer is framed when what it appends to `context_parts`,
and the resulting `total_size`, depend on the incoming state only through
`total_size`.  Every operation of the assembly pipeline is framed: the code
only ever appends to `self.context_parts` and only ever reads
`self.total_size`. -/
def Framed (g : GenState → GenState) : Prop :=
  ∃ T : Nat → Nat, ∃ P : Nat → List String,
    ∀ st : GenState,
      g st = { total_size := T st.total_size,
               context_parts := st.context_parts ++ P st.total_size }

/-- Formalisation of the claim's exclusion rule (spec side, for comparison
with the code's substring filters): the ancestor directory names of a path
string are all its `/`-separated components except the last. -/
def ancestorDirNames (path : String) : List String :=
  (pySplitOnChar '/' path).dropLast

/-- C1 counterexample repository: no candidate files anywhere, so no
fragment is ever checked or accepted; only the un-gated header, the
Project Structure section, the Key Files section header and the footer
are emitted. -/
def cx1Data : RepoData :=
  { repo_name := "r", repo_path_str := "/r", project_types := [],
    structure_text := "T", git_section := none, package_info_json := none,
    entry_points := [], status_file := none, important_items := [],
    terraform_root := [], terraform_modules := [], terraform_accounts := [],
    policy_glob := [], config_glob := [], source_globs := [] }

/-- The fixed 35-entry `self.important_files` list resolved against a
repository that contains none of the named files: every exact name is
absent and the two `.github/workflows` globs match nothing.  The list
order follows the source. -/
def emptyImportantItems : List KeyItem :=
  [.exactPat none, .exactPat none, .exactPat none, .exactPat none, -- README.md .rst .txt README
   .statusPat, .exactPat none, .exactPat none, -- STATUS.md TODO.md ROADMAP.md
   .exactPat none, .exactPat none, .exactPat none, -- LICENSE LICENSE.md LICENSE.txt
   .exactPat none, .exactPat none, .exactPat none, -- CONTRIBUTING.md CHANGELOG.md CHANGELOG
   .exactPat none, .exactPat none, .exactPat none, -- .env.example .env.sample .env.template
   .exactPat none, .exactPat none, .exactPat none, -- Makefile makefile GNUmakefile
   .exactPat none, .exactPat none, .exactPat none, .exactPat none, -- terragrunt.hcl common.hcl account.hcl backend.hcl
   .exactPat none, .exactPat none, .exactPat none, .exactPat none, .exactPat none, -- versions.tf main.tf variables.tf outputs.tf providers.tf
   .globPat [], .globPat [], -- .github/workflows/*.yml and *.yaml
   .exactPat none, .exactPat none, .exactPat none, -- .gitlab-ci.yml azure-pipelines.yml .circleci/config.yml
   .exactPat none, .exactPat none] -- Jenkinsfile bitbucket-pipelines.yml

/-- A small readable config file used by the C2 counterexample run. -/
def cx2Cfg : FSFile :=
  { path := "/r/setup.cfg", rel := "setup.cfg", name := "setup.cfg", suffix := ".cfg",
    size := 4, isFile := true, content := some "k=1\n", err := "" }

/-- A terraform candidate present in the C2 counterexample run (its
category's checkpoint is already exceeded when the category is reached,
so it never appears). -/
def cx2Tf : FSFile :=
  { path := "/r/main.tf", rel := "main.tf", name := "main.tf", suffix := ".tf",
    size := 5, isFile := true, content := some "a{}\n", err := "" }

/-- The fixed `self.important_files` list resolved against the C2
counterexample repository: identical to `emptyImportantItems` except that
the repository's root `main.tf` exists and resolves. -/
def cx2Items : List KeyItem :=
  [.exactPat none, .exactPat none, .exactPat none, .exactPat none, -- README.md .rst .txt README
   .statusPat, .exactPat none, .exactPat none, -- STATUS.md TODO.md ROADMAP.md
   .exactPat none, .exactPat none, .exactPat none, -- LICENSE LICENSE.md LICENSE.txt
   .exactPat none, .exactPat none, .exactPat none, -- CONTRIBUTING.md CHANGELOG.md CHANGELOG
   .exactPat none, .exactPat none, .exactPat none, -- .env.example .env.sample .env.template
   .exactPat none, .exactPat none, .exactPat none, -- Makefile makefile GNUmakefile
   .exactPat none, .exactPat none, .exactPat none, .exactPat none, -- terragrunt.hcl common.hcl account.hcl backend.hcl
   .exactPat none, .exactPat (some cx2Tf), .exactPat none, .exactPat none, .exactPat none, -- versions.tf main.tf variables.tf outputs.tf providers.tf
   .globPat [], .globPat [], -- .github/workflows/*.yml and *.yaml
   .exactPat none, .exactPat none, .exactPat none, -- .gitlab-ci.yml azure-pipelines.yml .circleci/config.yml
   .exactPat none, .exactPat none] -- Jenkinsfile bitbucket-pipelines.yml

/-- C2 counterexample repository: root `main.tf` and `setup.cfg`, detected
type `terraform`, and enough structure that with `max_total_size = 1000`
the Project Structure section (826 characters) drives `total_size` to 860
entering the Key Files loop — so the notice fires at the first pattern —
past the terraform checkpoint (850) but below the config checkpoint (900). -/
def cx2Data : RepoData :=
  { repo_name := "r", repo_path_str := "/r", project_types := ["terraform"],
    structure_text := String.mk (List.replicate 826 'x'),
    git_section := none, package_info_json := none,
    entry_points := [], status_file := none, important_items := cx2Items,
    terraform_root := [cx2Tf], terraform_modules := [], terraform_accounts := [],
    policy_glob := [], config_glob := [cx2Cfg],
    source_globs := [("**/*.tf", [cx2Tf]), ("**/*.hcl", [])] }

/-- C6 counterexample repository: an empty repository (no candidate files
at all, no detected project types), analysed with `max_total_size = 10`. -/
def c6Data : RepoData :=
  { repo_name := "r", repo_path_str := "/r", project_types := [],
    structure_text := "r/", git_section := none, package_info_json := none,
    entry_points := [], status_file := none, important_items := emptyImportantItems,
    terraform_root := [], terraform_modules := [], terraform_accounts := [],
    policy_glob := [], config_glob := [], source_globs := [] }

/-- A large ordinary file (no skip substring in its path) used to witness
the amended C4. -/
def c4BigFile : FSFile :=
  { path := "/r/data/big.csv", rel := "data/big.csv", name := "big.csv", suffix := ".csv",
    size := 12345, isFile := true, content := some "zz", err := "" }

/-- A large readable file inside a `.terraform` directory: the C4
counterexample (the loader returns `None`, not the byte-count placeholder). -/
def c4CacheFile : FSFile :=
  { path := "/r/infra/.terraform/huge.tf", rel := "infra/.terraform/huge.tf",
    name := "huge.tf", suffix := ".tf",
    size := 50000, isFile := true, content := some "x", err := "" }

/-- The 200-line content of the C5 witness file. -/
def c5Content : String := String.intercalate "\n" (List.replicate 200 "a")

/-- A readable 200-line file within the size ceiling: the amended C5
witness (the spec's own `maxLines = 50` scenario). -/
def c5File200 : FSFile :=
  { path := "/r/notes.txt", rel := "notes.txt", name := "notes.txt", suffix := ".txt",
    size := 399, isFile := true, content := some c5Content, err := "" }

/-- The 60-line content of the C5 counterexample file. -/
def c5CacheContent : String := String.intercalate "\n" (List.replicate 60 "b")

/-- A readable 60-line file within the size ceiling whose name merely
contains `.terraform` as a substring: the C5 counterexample (the loader
returns `None`, not the truncated rendering). -/
def c5CacheFile : FSFile :=
  { path := "/r/mod/.terraform-docs.yml", rel := "mod/.terraform-docs.yml",
    name := ".terraform-docs.yml", suffix := ".yml",
    size := 119, isFile := true, content := some c5CacheContent, err := "" }

/-- C7 counterexample file: its path contains the excluded name `env` only
as a substring of the component `renv`; no ancestor directory name is in
`skip_dirs` and its extension is not in `skip_extensions`. -/
def c7File : FSFile :=
  { path := "/r/renv/app.config", rel := "renv/app.config",
    name := "app.config", suffix := ".config",
    size := 3, isFile := true, content := some "x=1", err := "" }

/-- C7 counterexample repository: `c7File` is the only config glob match. -/
def c7Data : RepoData :=
  { repo_name := "r", repo_path_str := "/r", project_types := [],
    structure_text := "", git_section := none, package_info_json := none,
    entry_points := [], status_file := none, important_items := [],
    terraform_root := [], terraform_modules := [], terraform_accounts := [],
    policy_glob := [], config_glob := [c7File], source_globs := [] }

/-- A config file with a clean path, used to witness the amended C7. -/
def c7wFile : FSFile :=
  { path := "/w/tsconfig.json", rel := "tsconfig.json",
    name := "tsconfig.json", suffix := ".json",
    size := 2, isFile := true, content := some "{}", err := "" }

/-- Witness repository for the amended C7. -/
def c7wData : RepoData :=
  { repo_name := "w", repo_path_str := "/w", project_types := [],
    structure_text := "", git_section := none, package_info_json := none,
    entry_points := [], status_file := none, important_items := [],
    terraform_root := [], terraform_modules := [], terraform_accounts := [],
    policy_glob := [], config_glob := [c7wFile], source_globs := [] }

/-- A readable, small, ordinary file whose name merely contains
`.terraform` as a substring: the C10 witness. -/
def c10File : FSFile :=
  { path := "/r/src/my.terraformrc", rel := "src/my.terraformrc",
    name := "my.terraformrc", suffix := ".terraformrc",
    size := 2, isFile := true, content := some "ok", err := "" }

/-- A candidate file for the C2-amendment witness state. -/
def c2wFile : FSFile :=
  { path := "/w/a.py", rel := "a.py", name := "a.py", suffix := ".py",
    size := 2, isFile := true, content := some "hi", err := "" }

/-- Witness repository for the amended C2. -/
def c2wData : RepoData :=
  { repo_name := "w", repo_path_str := "/w", project_types := ["terraform"],
    structure_text := "", git_section := none, package_info_json := none,
    entry_points := [], status_file := none, important_items := [],
    terraform_root := [c2wFile], terraform_modules := [], terraform_accounts := [],
    policy_glob := [], config_glob := [c2wFile], source_globs := [] }

theorem addFile_spec (mt mf : Nat) (st : GenState) (f : FSFile) :
    _add_file_content mt mf st f = st ∨
    ∃ c, get_file_content mf 50 f = some c ∧ c ≠ "" ∧
      st.total_size + c.length < mt ∧
      _add_file_content mt mf st f =
        { total_size := st.total_size + c.length + 100,
          context_parts := st.context_parts ++
            ["\n### " ++ f.rel ++ "\n",
             "```" ++ _get_language_for_file f ++ "\n" ++ c ++ "\n```\n"] } := by
  rcases hgc : get_file_content mf 50 f with _ | c
  · left
    simp [_add_file_content, hgc]
  · by_cases h : c ≠ "" ∧ st.total_size + c.length < mt
    · exact Or.inr ⟨c, rfl, h.1, h.2, by simp [_add_file_content, hgc, h]⟩
    · left
      simp only [_add_file_content, hgc]
      rw [if_neg h]

theorem addFile_total_mono (mt mf : Nat) (st : GenState) (f : FSFile) :
    st.total_size ≤ (_add_file_content mt mf st f).total_size := by
  rcases addFile_spec mt mf st f with h | ⟨c, _, _, _, h⟩
  · rw [h]
  · rw [h]
    show st.total_size ≤ st.total_size + c.length + 100
    omega

theorem addFile_noop_of_ge (mt mf : Nat) (st : GenState) (f : FSFile)
    (h : mt ≤ st.total_size) : _add_file_content mt mf st f = st := by
  rcases addFile_spec mt mf st f with heq | ⟨c, _, _, hlt, _⟩
  · exact heq
  · omega

theorem keyGlobStep_total_mono (mt mf : Nat) (st : GenState) (f : FSFile) :
    st.total_size ≤ (keyGlobStep mt mf st f).total_size := by
  unfold keyGlobStep
  split
  · exact addFile_total_mono mt mf st f
  · exact Nat.le_refl _

theorem keyGlobStep_noop_of_ge (mt mf : Nat) (st : GenState) (f : FSFile)
    (h : mt ≤ st.total_size) : keyGlobStep mt mf st f = st := by
  unfold keyGlobStep
  split
  · exact addFile_noop_of_ge mt mf st f h
  · rfl

theorem keyGlobFold_total_mono (mt mf : Nat) (l : List FSFile) (st : GenState) :
    st.total_size ≤ (l.foldl (keyGlobStep mt mf) st).total_size := by
  induction l generalizing st with
  | nil => exact Nat.le_refl _
  | cons f rest ih =>
    exact Nat.le_trans (keyGlobStep_total_mono mt mf st f) (ih (keyGlobStep mt mf st f))

theorem keyGlobFold_noop_of_ge (mt mf : Nat) (l : List FSFile) (st : GenState)
    (h : mt ≤ st.total_size) : l.foldl (keyGlobStep mt mf) st = st := by
  induction l with
  | nil => rfl
  | cons f rest ih =>
    show (rest.foldl (keyGlobStep mt mf) (keyGlobStep mt mf st f)) = st
    rw [keyGlobStep_noop_of_ge mt mf st f h, ih]

theorem keyFilesLoop_cons_status (mt mf : Nat) (rest : List KeyItem) (st : GenState) :
    keyFilesLoop mt mf (.statusPat :: rest) st =
      if 5 * st.total_size > 4 * mt then
        { st with context_parts := st.context_parts ++ [sizeNotice] }
      else keyFilesLoop mt mf rest st := rfl

theorem keyFilesLoop_cons_glob (mt mf : Nat) (ms : List FSFile) (rest : List KeyItem)
    (st : GenState) :
    keyFilesLoop mt mf (.globPat ms :: rest) st =
      if 5 * st.total_size > 4 * mt then
        { st with context_parts := st.context_parts ++ [sizeNotice] }
      else keyFilesLoop mt mf rest ((ms.take 3).foldl (keyGlobStep mt mf) st) := rfl

theorem keyFilesLoop_cons_exact_some (mt mf : Nat) (f : FSFile) (rest : List KeyItem)
    (st : GenState) :
    keyFilesLoop mt mf (.exactPat (some f) :: rest) st =
      if 5 * st.total_size > 4 * mt then
        { st with context_parts := st.context_parts ++ [sizeNotice] }
      else keyFilesLoop mt mf rest (_add_file_content mt mf st f) := rfl

theorem keyFilesLoop_cons_exact_none (mt mf : Nat) (rest : List KeyItem) (st : GenState) :
    keyFilesLoop mt mf (.exactPat none :: rest) st =
      if 5 * st.total_size > 4 * mt then
        { st with context_parts := st.context_parts ++ [sizeNotice] }
      else keyFilesLoop mt mf rest st := rfl

theorem keyFilesLoop_total_mono (mt mf : Nat) (items : List KeyItem) (st : GenState) :
    st.total_size ≤ (keyFilesLoop mt mf items st).total_size := by
  induction items generalizing st with
  | nil => exact Nat.le_refl _
  | cons item rest ih =>
    cases item with
    | statusPat =>
      rw [keyFilesLoop_cons_status]
      split
      · exact Nat.le_refl _
      · exact ih st
    | globPat ms =>
      rw [keyFilesLoop_cons_glob]
      split
      · exact Nat.le_refl _
      · exact Nat.le_trans (keyGlobFold_total_mono mt mf (ms.take 3) st) (ih _)
    | exactPat found =>
      cases found with
      | some f =>
        rw [keyFilesLoop_cons_exact_some]
        split
        · exact Nat.le_refl _
        · exact Nat.le_trans (addFile_total_mono mt mf st f) (ih _)
      | none =>
        rw [keyFilesLoop_cons_exact_none]
        split
        · exact Nat.le_refl _
        · exact ih st

theorem keyFilesLoop_of_ge (mt mf : Nat) (items : List KeyItem) (st : GenState)
    (h : mt ≤ st.total_size) :
    (keyFilesLoop mt mf items st).total_size = st.total_size ∧
    ((keyFilesLoop mt mf items st).context_parts = st.context_parts ∨
      (keyFilesLoop mt mf items st).context_parts = st.context_parts ++ [sizeNotice]) := by
  induction items with
  | nil => exact ⟨rfl, Or.inl rfl⟩
  | cons item rest ih =>
    cases item with
    | statusPat =>
      rw [keyFilesLoop_cons_status]
      split
      · exact ⟨rfl, Or.inr rfl⟩
      · exact ih
    | globPat ms =>
      rw [keyFilesLoop_cons_glob]
      split
      · exact ⟨rfl, Or.inr rfl⟩
      · rw [keyGlobFold_noop_of_ge mt mf (ms.take 3) st h]; exact ih
    | exactPat found =>
      cases found with
      | some f =>
        rw [keyFilesLoop_cons_exact_some]
        split
        · exact ⟨rfl, Or.inr rfl⟩
        · rw [addFile_noop_of_ge mt mf st f h]; exact ih
      | none =>
        rw [keyFilesLoop_cons_exact_none]
        split
        · exact ⟨rfl, Or.inr rfl⟩
        · exact ih

theorem terraformLoop_total_mono (mt mf : Nat) (l : List FSFile) (st : GenState) :
    st.total_size ≤ (terraformLoop mt mf l st).total_size := by
  induction l generalizing st with
  | nil => exact Nat.le_refl _
  | cons f rest ih =>
    rw [terraformLoop]
    split
    · exact Nat.le_refl _
    · exact Nat.le_trans (addFile_total_mono mt mf st f) (ih _)

theorem policyLoop_total_mono (mt mf : Nat) (l : List FSFile) (st : GenState) :
    st.total_size ≤ (policyLoop mt mf l st).total_size := by
  induction l generalizing st with
  | nil => exact Nat.le_refl _
  | cons f rest ih =>
    rw [policyLoop]
    split
    · exact Nat.le_refl _
    · exact Nat.le_trans (addFile_total_mono mt mf st f) (ih _)

theorem configLoop_total_mono (mt mf : Nat) (l : List FSFile) (st : GenState) :
    st.total_size ≤ (configLoop mt mf l st).total_size := by
  induction l generalizing st with
  | nil => exact Nat.le_refl _
  | cons f rest ih =>
    rw [configLoop]
    split
    · exact Nat.le_refl _
    · exact Nat.le_trans (addFile_total_mono mt mf st f) (ih _)

theorem samplesLoop_total_mono (mt mf : Nat) (l : List FSFile) (st : GenState) :
    st.total_size ≤ (samplesLoop mt mf l st).total_size := by
  induction l generalizing st with
  | nil => exact Nat.le_refl _
  | cons f rest ih =>
    rw [samplesLoop]
    split
    · exact Nat.le_refl _
    · exact Nat.le_trans (addFile_total_mono mt mf st f) (ih _)

theorem add_section_total (st : GenState) (t c : String) :
    (add_section st t c).total_size = st.total_size + t.length + c.length := rfl

theorem add_section_total_mono (st : GenState) (t c : String) :
    st.total_size ≤ (add_section st t c).total_size := by
  rw [add_section_total]; omega

theorem statusStep_total_mono (mt mf : Nat) (d : RepoData) (st : GenState) :
    st.total_size ≤ (statusStep mt mf d st).total_size := by
  rcases hsf : d.status_file with _ | sf
  · simp [statusStep, hsf]
  · simp only [statusStep, hsf]
    split
    · exact addFile_total_mono mt mf st sf
    · exact Nat.le_refl _

theorem keyFilesPhase_total_mono (mt mf : Nat) (d : RepoData) (st : GenState) :
    st.total_size ≤ (keyFilesPhase mt mf d st).total_size := by
  unfold keyFilesPhase
  exact Nat.le_trans (add_section_total_mono st "Key Files" "")
    (Nat.le_trans (statusStep_total_mono mt mf d _) (keyFilesLoop_total_mono mt mf _ _))

theorem tfLoopStep_total_mono (mt mf : Nat) (d : RepoData) (st : GenState) :
    st.total_size ≤ (tfLoopStep mt mf d st).total_size := by
  unfold tfLoopStep
  split
  · exact Nat.le_trans (add_section_total_mono st _ "") (terraformLoop_total_mono mt mf _ _)
  · exact Nat.le_refl _

theorem policyStep_total_mono (mt mf : Nat) (d : RepoData) (st : GenState) :
    st.total_size ≤ (policyStep mt mf d st).total_size := by
  unfold policyStep
  split
  · exact Nat.le_trans (add_section_total_mono st _ "") (policyLoop_total_mono mt mf _ _)
  · exact Nat.le_refl _

theorem terraformPhase_total_mono (mt mf : Nat) (d : RepoData) (st : GenState) :
    st.total_size ≤ (terraformPhase mt mf d st).total_size := by
  unfold terraformPhase
  split
  · exact Nat.le_trans (tfLoopStep_total_mono mt mf d st)
      (policyStep_total_mono mt mf d _)
  · exact Nat.le_refl _

theorem configPhase_total_mono (mt mf : Nat) (d : RepoData) (st : GenState) :
    st.total_size ≤ (configPhase mt mf d st).total_size := by
  unfold configPhase
  split
  · exact Nat.le_trans (add_section_total_mono st _ "") (configLoop_total_mono mt mf _ _)
  · exact Nat.le_refl _

theorem samplesPhase_total_mono (mt mf : Nat) (d : RepoData) (st : GenState) :
    st.total_size ≤ (samplesPhase mt mf d st).total_size := by
  unfold samplesPhase
  split
  · unfold _add_source_samples
    split
    · exact Nat.le_refl _
    · exact Nat.le_trans (add_section_total_mono st _ "") (samplesLoop_total_mono mt mf _ _)
  · exact Nat.le_refl _

theorem terraformPhase_noop_of_ge (mt mf : Nat) (d : RepoData) (st : GenState)
    (h : mt ≤ st.total_size) : terraformPhase mt mf d st = st := by
  unfold terraformPhase
  rw [if_neg]
  rintro ⟨-, hlt⟩
  omega

theorem configPhase_noop_of_ge (mt mf : Nat) (d : RepoData) (st : GenState)
    (h : mt ≤ st.total_size) : configPhase mt mf d st = st := by
  unfold configPhase
  rw [if_neg]
  rintro ⟨-, hlt⟩
  omega

theorem samplesPhase_noop_of_ge (mt mf : Nat) (d : RepoData) (st : GenState)
    (h : mt ≤ st.total_size) : samplesPhase mt mf d st = st := by
  unfold samplesPhase
  rw [if_neg]
  intro hlt
  omega

theorem framed_id : Framed (fun st => st) :=
  ⟨fun t => t, fun _ => [], fun st => by cases st; simp⟩

theorem framed_comp {f g : GenState → GenState} (hf : Framed f) (hg : Framed g) :
    Framed (fun st => g (f st)) := by
  obtain ⟨Tf, Pf, hf⟩ := hf
  obtain ⟨Tg, Pg, hg⟩ := hg
  refine ⟨fun t => Tg (Tf t), fun t => Pf t ++ Pg (Tf t), fun st => ?_⟩
  show g (f st) =
    { total_size := Tg (Tf st.total_size),
      context_parts := st.context_parts ++ (Pf st.total_size ++ Pg (Tf st.total_size)) }
  rw [hf st, hg { total_size := Tf st.total_size,
                  context_parts := st.context_parts ++ Pf st.total_size }]
  simp

theorem framed_ite (c : Nat → Prop) [DecidablePred c] {f g : GenState → GenState}
    (hf : Framed f) (hg : Framed g) :
    Framed (fun st => if c st.total_size then f st else g st) := by
  obtain ⟨Tf, Pf, hf⟩ := hf
  obtain ⟨Tg, Pg, hg⟩ := hg
  refine ⟨fun t => if c t then Tf t else Tg t,
          fun t => if c t then Pf t else Pg t, fun st => ?_⟩
  show (if c st.total_size then f st else g st) =
    { total_size := if c st.total_size then Tf st.total_size else Tg st.total_size,
      context_parts := st.context_parts ++
        if c st.total_size then Pf st.total_size else Pg st.total_size }
  by_cases h : c st.total_size
  · rw [if_pos h, if_pos h, if_pos h]
    exact hf st
  · rw [if_neg h, if_neg h, if_neg h]
    exact hg st

theorem framed_add_section (t c : String) : Framed (fun st => add_section st t c) :=
  ⟨fun n => n + t.length + c.length, fun _ => ["\n## " ++ t ++ "\n", c],
    fun _ => rfl⟩

theorem framed_notice : Framed (fun st => { st with context_parts := st.context_parts ++ [sizeNotice] }) :=
  ⟨fun t => t, fun _ => [sizeNotice], fun _ => rfl⟩

theorem framed_addFile (mt mf : Nat) (f : FSFile) :
    Framed (fun st => _add_file_content mt mf st f) := by
  rcases hgc : get_file_content mf 50 f with _ | c
  · refine ⟨fun t => t, fun _ => [], fun st => ?_⟩
    cases st
    simp [_add_file_content, hgc]
  · refine ⟨fun t => if c ≠ "" ∧ t + c.length < mt then t + c.length + 100 else t,
            fun t => if c ≠ "" ∧ t + c.length < mt then
              ["\n### " ++ f.rel ++ "\n",
               "```" ++ _get_language_for_file f ++ "\n" ++ c ++ "\n```\n"] else [],
            fun st => ?_⟩
    by_cases h : c ≠ "" ∧ st.total_size + c.length < mt
    · simp [_add_file_content, hgc, h]
    · simp only [_add_file_content, hgc, h, if_neg, not_false_iff]
      cases st
      simp

theorem framed_keyGlobStep (mt mf : Nat) (f : FSFile) :
    Framed (fun st => keyGlobStep mt mf st f) := by
  by_cases hb : (!(skipSubstrings.any (fun sk => strContains f.path sk))) = true
  · have he : (fun st => keyGlobStep mt mf st f) = fun st => _add_file_content mt mf st f :=
      funext fun st => by simp [keyGlobStep, hb]
    rw [he]
    exact framed_addFile mt mf f
  · have he : (fun st => keyGlobStep mt mf st f) = fun st => st :=
      funext fun st => by simp [keyGlobStep, hb]
    rw [he]
    exact framed_id

theorem framed_keyGlobFold (mt mf : Nat) (l : List FSFile) :
    Framed (fun st => l.foldl (keyGlobStep mt mf) st) := by
  induction l with
  | nil => exact framed_id
  | cons f rest ih =>
    have he : (fun st => (f :: rest).foldl (keyGlobStep mt mf) st) =
        fun st => rest.foldl (keyGlobStep mt mf) (keyGlobStep mt mf st f) :=
      funext fun st => rfl
    rw [he]
    exact framed_comp (framed_keyGlobStep mt mf f) ih

theorem framed_keyFilesLoop (mt mf : Nat) (items : List KeyItem) :
    Framed (fun st => keyFilesLoop mt mf items st) := by
  induction items with
  | nil => exact framed_id
  | cons item rest ih =>
    cases item with
    | statusPat =>
      have he : (fun st => keyFilesLoop mt mf (.statusPat :: rest) st) =
          fun st => if 5 * st.total_size > 4 * mt then
            { st with context_parts := st.context_parts ++ [sizeNotice] }
          else keyFilesLoop mt mf rest st := funext fun st => rfl
      rw [he]
      exact framed_ite (fun t => 5 * t > 4 * mt) framed_notice ih
    | globPat ms =>
      have he : (fun st => keyFilesLoop mt mf (.globPat ms :: rest) st) =
          fun st => if 5 * st.total_size > 4 * mt then
            { st with context_parts := st.context_parts ++ [sizeNotice] }
          else keyFilesLoop mt mf rest ((ms.take 3).foldl (keyGlobStep mt mf) st) :=
        funext fun st => rfl
      rw [he]
      exact framed_ite (fun t => 5 * t > 4 * mt) framed_notice
        (framed_comp (framed_keyGlobFold mt mf (ms.take 3)) ih)
    | exactPat found =>
      cases found with
      | some f =>
        have he : (fun st => keyFilesLoop mt mf (.exactPat (some f) :: rest) st) =
            fun st => if 5 * st.total_size > 4 * mt then
              { st with context_parts := st.context_parts ++ [sizeNotice] }
            else keyFilesLoop mt mf rest (_add_file_content mt mf st f) :=
          funext fun st => rfl
        rw [he]
        exact framed_ite (fun t => 5 * t > 4 * mt) framed_notice
          (framed_comp (framed_addFile mt mf f) ih)
      | none =>
        have he : (fun st => keyFilesLoop mt mf (.exactPat none :: rest) st) =
            fun st => if 5 * st.total_size > 4 * mt then
              { st with context_parts := st.context_parts ++ [sizeNotice] }
            else keyFilesLoop mt mf rest st := funext fun st => rfl
        rw [he]
        exact framed_ite (fun t => 5 * t > 4 * mt) framed_notice ih

theorem framed_terraformLoop (mt mf : Nat) (l : List FSFile) :
    Framed (fun st => terraformLoop mt mf l st) := by
  induction l with
  | nil => exact framed_id
  | cons f rest ih =>
    have he : (fun st => terraformLoop mt mf (f :: rest) st) =
        fun st => if 10 * st.total_size > 9 * mt then st
          else terraformLoop mt mf rest (_add_file_content mt mf st f) :=
      funext fun st => rfl
    rw [he]
    exact framed_ite (fun t => 10 * t > 9 * mt) framed_id
      (framed_comp (framed_addFile mt mf f) ih)

theorem framed_policyLoop (mt mf : Nat) (l : List FSFile) :
    Framed (fun st => policyLoop mt mf l st) := by
  induction l with
  | nil => exact framed_id
  | cons f rest ih =>
    have he : (fun st => policyLoop mt mf (f :: rest) st) =
        fun st => if 20 * st.total_size > 19 * mt then st
          else policyLoop mt mf rest (_add_file_content mt mf st f) :=
      funext fun st => rfl
    rw [he]
    exact framed_ite (fun t => 20 * t > 19 * mt) framed_id
      (framed_comp (framed_addFile mt mf f) ih)

theorem framed_configLoop (mt mf : Nat) (l : List FSFile) :
    Framed (fun st => configLoop mt mf l st) := by
  induction l with
  | nil => exact framed_id
  | cons f rest ih =>
    have he : (fun st => configLoop mt mf (f :: rest) st) =
        fun st => if 10 * st.total_size > 9 * mt then st
          else configLoop mt mf rest (_add_file_content mt mf st f) :=
      funext fun st => rfl
    rw [he]
    exact framed_ite (fun t => 10 * t > 9 * mt) framed_id
      (framed_comp (framed_addFile mt mf f) ih)

theorem framed_samplesLoop (mt mf : Nat) (l : List FSFile) :
    Framed (fun st => samplesLoop mt mf l st) := by
  induction l with
  | nil => exact framed_id
  | cons f rest ih =>
    have he : (fun st => samplesLoop mt mf (f :: rest) st) =
        fun st => if 20 * st.total_size > 19 * mt then st
          else samplesLoop mt mf rest (_add_file_content mt mf st f) :=
      funext fun st => rfl
    rw [he]
    exact framed_ite (fun t => 20 * t > 19 * mt) framed_id
      (framed_comp (framed_addFile mt mf f) ih)

theorem framed_gitStep (d : RepoData) : Framed (fun st => gitStep d st) := by
  rcases hg : d.git_section with _ | g
  · have he : (fun st => gitStep d st) = fun st => st :=
      funext fun st => by simp [gitStep, hg]
    rw [he]; exact framed_id
  · have he : (fun st => gitStep d st) = fun st => add_section st "Git Information" g :=
      funext fun st => by simp [gitStep, hg]
    rw [he]; exact framed_add_section _ _

theorem framed_pkgStep (d : RepoData) : Framed (fun st => pkgStep d st) := by
  rcases hp : d.package_info_json with _ | p
  · have he : (fun st => pkgStep d st) = fun st => st :=
      funext fun st => by simp [pkgStep, hp]
    rw [he]; exact framed_id
  · have he : (fun st => pkgStep d st) =
        fun st => add_section st "Package Information" ("```json\n" ++ p ++ "\n```") :=
      funext fun st => by simp [pkgStep, hp]
    rw [he]; exact framed_add_section _ _

theorem framed_entryStep (d : RepoData) : Framed (fun st => entryStep d st) := by
  by_cases he0 : d.entry_points = []
  · have he : (fun st => entryStep d st) = fun st => st :=
      funext fun st => by simp [entryStep, he0]
    rw [he]; exact framed_id
  · have he : (fun st => entryStep d st) =
        fun st => add_section st "Entry Points"
          (String.intercalate "\n"
            (d.entry_points.map (fun lf => "- **" ++ lf.1 ++ ":** `" ++ lf.2 ++ "`"))) :=
      funext fun st => by simp [entryStep, he0]
    rw [he]; exact framed_add_section _ _

theorem framed_structStep (d : RepoData) : Framed (fun st => structStep d st) :=
  framed_add_section "Project Structure" ("```\n" ++ d.structure_text ++ "\n```")

theorem framed_sectionsPhase (d : RepoData) : Framed (fun st => sectionsPhase d st) := by
  have he : (fun st => sectionsPhase d st) =
      fun st => entryStep d (pkgStep d (gitStep d (structStep d st))) := funext fun st => rfl
  rw [he]
  exact framed_comp (framed_comp (framed_comp (framed_structStep d) (framed_gitStep d))
    (framed_pkgStep d)) (framed_entryStep d)

theorem framed_statusStep (mt mf : Nat) (d : RepoData) :
    Framed (fun st => statusStep mt mf d st) := by
  rcases hsf : d.status_file with _ | sf
  · have he : (fun st => statusStep mt mf d st) = fun st => st :=
      funext fun st => by simp [statusStep, hsf]
    rw [he]; exact framed_id
  · have he : (fun st => statusStep mt mf d st) =
        fun st => if 5 * st.total_size < 4 * mt then _add_file_content mt mf st sf else st :=
      funext fun st => by simp [statusStep, hsf]
    rw [he]
    exact framed_ite (fun t => 5 * t < 4 * mt) (framed_addFile mt mf sf) framed_id

theorem framed_keyFilesPhase (mt mf : Nat) (d : RepoData) :
    Framed (fun st => keyFilesPhase mt mf d st) := by
  have he : (fun st => keyFilesPhase mt mf d st) =
      fun st => keyFilesLoop mt mf d.important_items
        (statusStep mt mf d (add_section st "Key Files" "")) := funext fun st => rfl
  rw [he]
  exact framed_comp (framed_comp (framed_add_section "Key Files" "")
    (framed_statusStep mt mf d)) (framed_keyFilesLoop mt mf d.important_items)

theorem framed_tfLoopStep (mt mf : Nat) (d : RepoData) :
    Framed (fun st => tfLoopStep mt mf d st) := by
  by_cases htf : _find_terraform_files d ≠ []
  · have he : (fun st => tfLoopStep mt mf d st) =
        fun st => terraformLoop mt mf (_find_terraform_files d)
          (add_section st "Terraform/Terragrunt Configuration" "") :=
      funext fun st => by simp [tfLoopStep, htf]
    rw [he]
    exact framed_comp (framed_add_section _ _) (framed_terraformLoop mt mf _)
  · have he : (fun st => tfLoopStep mt mf d st) = fun st => st :=
      funext fun st => by simp [tfLoopStep, htf]
    rw [he]; exact framed_id

theorem framed_policyStep (mt mf : Nat) (d : RepoData) :
    Framed (fun st => policyStep mt mf d st) := by
  by_cases hpf : _find_policy_files d ≠ []
  · have he : (fun st => policyStep mt mf d st) =
        fun st => if 20 * st.total_size < 19 * mt then
          policyLoop mt mf (_find_policy_files d) (add_section st "Policy Files" "")
        else st :=
      funext fun st => by simp [policyStep, hpf]
    rw [he]
    exact framed_ite (fun t => 20 * t < 19 * mt)
      (framed_comp (framed_add_section _ _) (framed_policyLoop mt mf _)) framed_id
  · have he : (fun st => policyStep mt mf d st) = fun st => st :=
      funext fun st => by simp [policyStep, hpf]
    rw [he]; exact framed_id

theorem framed_terraformPhase (mt mf : Nat) (d : RepoData) :
    Framed (fun st => terraformPhase mt mf d st) := by
  by_cases hm : "terraform" ∈ d.project_types
  · have he : (fun st => terraformPhase mt mf d st) =
        fun st => if 20 * st.total_size < 17 * mt then
          policyStep mt mf d (tfLoopStep mt mf d st)
        else st :=
      funext fun st => by simp [terraformPhase, terraformPolicyBody, hm]
    rw [he]
    exact framed_ite (fun t => 20 * t < 17 * mt)
      (framed_comp (framed_tfLoopStep mt mf d) (framed_policyStep mt mf d)) framed_id
  · have he : (fun st => terraformPhase mt mf d st) = fun st => st :=
      funext fun st => by simp [terraformPhase, hm]
    rw [he]; exact framed_id

theorem framed_configPhase (mt mf : Nat) (d : RepoData) :
    Framed (fun st => configPhase mt mf d st) := by
  by_cases hcf : _find_config_files d ≠ []
  · have he : (fun st => configPhase mt mf d st) =
        fun st => if 10 * st.total_size < 9 * mt then
          configLoop mt mf ((_find_config_files d).take 10)
            (add_section st "Configuration Files" "")
        else st :=
      funext fun st => by simp [configPhase, hcf]
    rw [he]
    exact framed_ite (fun t => 10 * t < 9 * mt)
      (framed_comp (framed_add_section _ _) (framed_configLoop mt mf _)) framed_id
  · have he : (fun st => configPhase mt mf d st) = fun st => st :=
      funext fun st => by simp [configPhase, hcf]
    rw [he]; exact framed_id

theorem framed_samplesPhase (mt mf : Nat) (d : RepoData) :
    Framed (fun st => samplesPhase mt mf d st) := by
  by_cases hpt : d.project_types = []
  · have he : (fun st => samplesPhase mt mf d st) = fun st => st :=
      funext fun st => by simp [samplesPhase, _add_source_samples, hpt]
    rw [he]; exact framed_id
  · have he : (fun st => samplesPhase mt mf d st) =
        fun st => if 10 * st.total_size < 9 * mt then
          samplesLoop mt mf (sampleCandidates d).flatten
            (add_section st "Source Code Samples" "")
        else st :=
      funext fun st => by simp [samplesPhase, _add_source_samples, hpt]
    rw [he]
    exact framed_ite (fun t => 10 * t < 9 * mt)
      (framed_comp (framed_add_section _ _) (framed_samplesLoop mt mf _)) framed_id

theorem framed_pipelineBody (mt mf : Nat) (d : RepoData) :
    Framed (fun st => pipelineBody mt mf d st) := by
  have he : (fun st => pipelineBody mt mf d st) =
      fun st => samplesPhase mt mf d (configPhase mt mf d (terraformPhase mt mf d
        (keyFilesPhase mt mf d (sectionsPhase d st)))) := funext fun st => rfl
  rw [he]
  exact framed_comp (framed_comp (framed_comp (framed_comp (framed_sectionsPhase d)
    (framed_keyFilesPhase mt mf d)) (framed_terraformPhase mt mf d))
    (framed_configPhase mt mf d)) (framed_samplesPhase mt mf d)

theorem joinParts_cons (p : String) (ps : List String) :
    joinParts (p :: ps) = p ++ joinParts ps := rfl

theorem generate_output_split (mt mf : Nat) (d : RepoData) (ts : String) :
    generate_output mt mf d ts =
      headerLeader ++ (ts ++ (headerTrailer d ++
        joinParts
          ((pipelineBody mt mf d { total_size := 0, context_parts := [] }).context_parts ++
            [footerText
              (pipelineBody mt mf d { total_size := 0, context_parts := [] }).total_size]))) := by
  obtain ⟨T, P, hb⟩ := framed_pipelineBody mt mf d
  have h0 : pipelineBody mt mf d { total_size := 0, context_parts := [mkHeader d ts] } =
      { total_size := T 0, context_parts := [mkHeader d ts] ++ P 0 } :=
    hb { total_size := 0, context_parts := [mkHeader d ts] }
  have h1 : pipelineBody mt mf d { total_size := 0, context_parts := [] } =
      { total_size := T 0, context_parts := P 0 } :=
    hb { total_size := 0, context_parts := [] }
  show joinParts
      ((pipelineBody mt mf d { total_size := 0, context_parts := [mkHeader d ts] }).context_parts ++
        [footerText
          (pipelineBody mt mf d { total_size := 0, context_parts := [mkHeader d ts] }).total_size]) =
    headerLeader ++ (ts ++ (headerTrailer d ++
      joinParts
        ((pipelineBody mt mf d { total_size := 0, context_parts := [] }).context_parts ++
          [footerText
            (pipelineBody mt mf d { total_size := 0, context_parts := [] }).total_size])))
  rw [h0, h1]
  simp only [List.singleton_append, List.cons_append, List.nil_append, joinParts_cons,
    mkHeader, String.append_assoc]

/-- C1 (amended): every file fragment is accepted only when, at the moment
of its check, `emittedSize + fragmentLength < maxDocumentSize`; hence the
counter immediately after any file-fragment acceptance is below
`maxDocumentSize + 100` (the fixed per-fragment overhead).  The header, the
metadata sections, section titles and fence markup are appended without any
budget check, so the final artifact length as a whole is not bounded by
`maxDocumentSize` plus the footer plus a single fragment's overshoot
(see the counterexample). -/
theorem c1_amended (mt mf : Nat) (st : GenState) (f : FSFile) :
    _add_file_content mt mf st f = st ∨
    ((_add_file_content mt mf st f).total_size < mt + 100 ∧
      ∃ c, get_file_content mf 50 f = some c ∧ st.total_size + c.length < mt) := by
  rcases addFile_spec mt mf st f with h | ⟨c, hgc, hne, hlt, h⟩
  · exact Or.inl h
  · refine Or.inr ⟨?_, c, hgc, hlt⟩
    rw [h]
    show st.total_size + c.length + 100 < mt + 100
    omega

/-- C3: a candidate fragment is appended only when, at the moment of the
check, `emittedSize + fragmentLength < maxDocumentSize`; otherwise the state
(document and counter) is unchanged — there is no partial append. -/
theorem c3_check_then_commit (mt mf : Nat) (st : GenState) (f : FSFile) :
    _add_file_content mt mf st f = st ∨
    ∃ c, get_file_content mf 50 f = some c ∧ c ≠ "" ∧
      st.total_size + c.length < mt ∧
      (_add_file_content mt mf st f).context_parts =
        st.context_parts ++
          ["\n### " ++ f.rel ++ "\n",
           "```" ++ _get_language_for_file f ++ "\n" ++ c ++ "\n```\n"] ∧
      (_add_file_content mt mf st f).total_size = st.total_size + c.length + 100 := by
  rcases addFile_spec mt mf st f with h | ⟨c, hgc, hne, hlt, h⟩
  · exact Or.inl h
  · exact Or.inr ⟨c, hgc, hne, hlt, by rw [h], by rw [h]⟩

/-- C6 (amended): the emitted-size counter never decreases (each primitive
operation and each assembly phase is monotone), and `_add_file_content`
increments it exactly once per accepted fragment by the fragment's rendered
length plus the fixed overhead constant 100, and by nothing otherwise.
However the counter is ALSO incremented outside fragment acceptance:
`add_section` adds the section's title length plus content length for every
emitted section (with no fixed markup constant), so "not incremented by
anything other than accepted fragments" fails (see the counterexample). -/
theorem c6_counter_monotone :
    (∀ (st : GenState) (t c : String),
      (add_section st t c).total_size = st.total_size + t.length + c.length) ∧
    (∀ (mt mf : Nat) (st : GenState) (f : FSFile),
      st.total_size ≤ (_add_file_content mt mf st f).total_size ∧
      ((_add_file_content mt mf st f).total_size = st.total_size ∨
        ∃ c, get_file_content mf 50 f = some c ∧
          (_add_file_content mt mf st f).total_size = st.total_size + (c.length + 100))) ∧
    (∀ (mt mf : Nat) (d : RepoData) (st : GenState),
      st.total_size ≤ (keyFilesPhase mt mf d st).total_size ∧
      st.total_size ≤ (terraformPhase mt mf d st).total_size ∧
      st.total_size ≤ (configPhase mt mf d st).total_size ∧
      st.total_size ≤ (samplesPhase mt mf d st).total_size) := by
  refine ⟨fun st t c => rfl, fun mt mf st f => ⟨addFile_total_mono mt mf st f, ?_⟩,
    fun mt mf d st => ⟨keyFilesPhase_total_mono mt mf d st,
      terraformPhase_total_mono mt mf d st, configPhase_total_mono mt mf d st,
      samplesPhase_total_mono mt mf d st⟩⟩
  rcases addFile_spec mt mf st f with h | ⟨c, hgc, hne, hlt, h⟩
  · exact Or.inl (by rw [h])
  · refine Or.inr ⟨c, hgc, ?_⟩
    rw [h]
    show st.total_size + c.length + 100 = st.total_size + (c.length + 100)
    omega

/-- C10: a file whose path string contains `'.terragrunt-cache'` or
`'.terraform'` as a substring yields no fragment at all from the loader
(`None`, neither content nor a placeholder), and `_add_file_content` leaves
both the document and the emitted-size counter unchanged — regardless of
readability, size, or whether the match is a real cache directory. -/
theorem c10_skip_paths (mf ml mt : Nat) (st : GenState) (f : FSFile)
    (h : strContains f.path ".terragrunt-cache" = true ∨
      strContains f.path ".terraform" = true) :
    get_file_content mf ml f = none ∧ _add_file_content mt mf st f = st := by
  have hany : skipSubstrings.any (fun sk => strContains f.path sk) = true := by
    rcases h with h | h <;> simp [skipSubstrings, h]
  constructor
  · simp [get_file_content, hany]
  · simp [_add_file_content, get_file_content, hany]

/-- C10 witness: `my.terraformrc` is a readable two-byte ordinary file —
not a cache directory — yet the loader silently drops it. -/
theorem c10_skip_paths_witness :
    strContains c10File.path ".terraform" = true ∧
    (get_file_content 10000 50 c10File = none ∧
      _add_file_content 100000 10000 { total_size := 0, context_parts := [] } c10File =
        { total_size := 0, context_parts := [] }) :=
  ⟨by decide,
    c10_skip_paths 10000 50 100000 { total_size := 0, context_parts := [] } c10File
      (Or.inr (by decide))⟩

/-- C2 (amended): once `emittedSize` has reached `maxDocumentSize`, no
further fragment is accepted anywhere (every `_add_file_content` is a no-op),
the terraform, config and samples phases are skipped outright by their entry
gates, and the Key Files loop adds at most the single omitted notice without
changing the counter.  The original claim's cascade fails in general because
each category has its own (higher) checkpoint and no notice is emitted
outside the Key Files loop (see the counterexample). -/
theorem c2_amended (mt mf : Nat) (d : RepoData) (items : List KeyItem) (st : GenState)
    (h : mt ≤ st.total_size) :
    (∀ f : FSFile, _add_file_content mt mf st f = st) ∧
    terraformPhase mt mf d st = st ∧
    configPhase mt mf d st = st ∧
    samplesPhase mt mf d st = st ∧
    (keyFilesLoop mt mf items st).total_size = st.total_size ∧
    ((keyFilesLoop mt mf items st).context_parts = st.context_parts ∨
      (keyFilesLoop mt mf items st).context_parts = st.context_parts ++ [sizeNotice]) := by
  exact ⟨fun f => addFile_noop_of_ge mt mf st f h, terraformPhase_noop_of_ge mt mf d st h,
    configPhase_noop_of_ge mt mf d st h, samplesPhase_noop_of_ge mt mf d st h,
    (keyFilesLoop_of_ge mt mf items st h).1, (keyFilesLoop_of_ge mt mf items st h).2⟩

/-- C2 (amended) witness at a concrete crossed-ceiling state. -/
theorem c2_amended_witness :
    5 ≤ (⟨7, []⟩ : GenState).total_size ∧
    ((∀ f : FSFile, _add_file_content 5 3 ⟨7, []⟩ f = ⟨7, []⟩) ∧
      terraformPhase 5 3 c2wData ⟨7, []⟩ = ⟨7, []⟩ ∧
      configPhase 5 3 c2wData ⟨7, []⟩ = ⟨7, []⟩ ∧
      samplesPhase 5 3 c2wData ⟨7, []⟩ = ⟨7, []⟩ ∧
      (keyFilesLoop 5 3 [KeyItem.exactPat (some c2wFile)] ⟨7, []⟩).total_size =
        (⟨7, []⟩ : GenState).total_size ∧
      ((keyFilesLoop 5 3 [KeyItem.exactPat (some c2wFile)] ⟨7, []⟩).context_parts =
          (⟨7, []⟩ : GenState).context_parts ∨
        (keyFilesLoop 5 3 [KeyItem.exactPat (some c2wFile)] ⟨7, []⟩).context_parts =
          (⟨7, []⟩ : GenState).context_parts ++ [sizeNotice])) :=
  ⟨by decide, c2_amended 5 3 c2wData [KeyItem.exactPat (some c2wFile)] ⟨7, []⟩ (by decide)⟩

/-- C4 (amended): for every file whose path does not contain
`'.terragrunt-cache'` or `'.terraform'` as a substring and whose raw byte
size exceeds `maxFragmentSize`, the loader returns the byte-count
placeholder without reading the content — the result is the same for every
possible content, and its size is the placeholder's own length.  For paths
containing those substrings the loader returns no fragment at all
(see the counterexample). -/
theorem c4_amended (mf ml : Nat) (f : FSFile) (c : Option String)
    (hskip : skipSubstrings.any (fun sk => strContains f.path sk) = false)
    (hsize : f.size > mf) :
    get_file_content mf ml { f with content := c } = some (tooLargeMsg f.size) := by
  simp [get_file_content, hskip, hsize]

/-- C4 (amended) witness: a 12,345-byte ordinary file renders as the
placeholder, whatever its content. -/
theorem c4_amended_witness :
    skipSubstrings.any (fun sk => strContains c4BigFile.path sk) = false ∧
    c4BigFile.size > 10000 ∧
    get_file_content 10000 50 { c4BigFile with content := some "zz" } =
      some "(File too large: 12,345 bytes)" :=
  ⟨by decide, by decide, by
    rw [c4_amended 10000 50 c4BigFile (some "zz") (by decide) (by decide)]
    decide⟩

/-- C4 counterexample: `infra/.terraform/huge.tf` is a 50,000-byte file,
yet the loader returns `None` rather than a placeholder stating the byte
count, so the claim's universal statement fails. -/
theorem c4_counterexample :
    c4CacheFile.size > 10000 ∧ get_file_content 10000 50 c4CacheFile = none := by
  constructor
  · decide
  · decide

/-- C5 (amended): for every readable file within `maxFragmentSize` whose
path does not contain `'.terragrunt-cache'` or `'.terraform'` as a
substring, the loader returns exactly the first `maxLines` lines plus a
trailer naming exactly `totalLines − maxLines` omitted lines when the line
count exceeds `maxLines`, and the content unchanged otherwise.  For paths
containing those substrings the loader returns no fragment at all
(see the counterexample). -/
theorem c5_amended (mf ml : Nat) (f : FSFile) (c : String)
    (hskip : skipSubstrings.any (fun sk => strContains f.path sk) = false)
    (hcontent : f.content = some c)
    (hsize : ¬ f.size > mf) :
    get_file_content mf ml f =
      some (if (pySplitOnChar '\n' c).length > ml then
        String.intercalate "\n" ((pySplitOnChar '\n' c).take ml) ++
          "\n\n... (truncated, " ++
          toString ((pySplitOnChar '\n' c).length - ml) ++ " more lines)"
      else c) := by
  simp only [get_file_content, hskip, hsize, hcontent, Bool.false_eq_true, if_false,
    ite_false, if_neg, not_false_iff]
  split <;> rfl

set_option maxRecDepth 100000 in
/-- C5 (amended) witness: the spec's own scenario — a 200-line file with
`maxLines = 50` renders as the first 50 lines plus a trailer stating
"150 more lines". -/
theorem c5_amended_witness :
    skipSubstrings.any (fun sk => strContains c5File200.path sk) = false ∧
    c5File200.content = some c5Content ∧
    ¬ c5File200.size > 10000 ∧
    get_file_content 10000 50 c5File200 =
      some (String.intercalate "\n" (List.replicate 50 "a") ++
        "\n\n... (truncated, 150 more lines)") :=
  ⟨by decide, rfl, by decide, by
    rw [c5_amended 10000 50 c5File200 c5Content (by decide) rfl (by decide)]
    decide⟩

set_option maxRecDepth 100000 in
/-- C5 counterexample: `mod/.terraform-docs.yml` is a readable 60-line file
within the byte ceiling, yet the loader returns `None` rather than the
first 50 lines plus a "10 more lines" trailer, so the claim's universal
statement fails. -/
theorem c5_counterexample :
    c5CacheFile.content = some c5CacheContent ∧
    (pySplitOnChar '\n' c5CacheContent).length > 50 ∧
    ¬ c5CacheFile.size > 10000 ∧
    get_file_content 10000 50 c5CacheFile = none := by
  refine ⟨rfl, by decide, by decide, by decide⟩

/-- C9: with the repository data and configuration fixed, two runs differ
only in the embedded timestamp: both artifacts are the fixed header leader,
then the timestamp, then one common remainder string. -/
theorem c9_idempotent_modulo_timestamp (mt mf : Nat) (d : RepoData) (ts1 ts2 : String) :
    ∃ q : String, generate_output mt mf d ts1 = headerLeader ++ (ts1 ++ q) ∧
      generate_output mt mf d ts2 = headerLeader ++ (ts2 ++ q) :=
  ⟨headerTrailer d ++
    joinParts
      ((pipelineBody mt mf d { total_size := 0, context_parts := [] }).context_parts ++
        [footerText (pipelineBody mt mf d { total_size := 0, context_parts := [] }).total_size]),
    generate_output_split mt mf d ts1, generate_output_split mt mf d ts2⟩

/-- C7 (amended): the config-file and entry-point locators exclude a path
iff some excluded directory NAME occurs as a substring of the full path
string (not iff an ancestor component equals it), subject to the first-20
(config) and first-3 (entry points) caps; the excluded-extension set is not
consulted by these locators at all (it is used only by the directory-tree
renderer).  See the counterexample for a path excluded although no
ancestor directory name is in the set and its extension is not excluded. -/
theorem c7_amended (d : RepoData) (L : List FSFile) (f : FSFile) :
    (f ∈ _find_config_files d →
      f ∈ d.config_glob ∧ skip_dirs.any (fun sk => strContains f.path sk) = false) ∧
    (f ∈ d.config_glob → skip_dirs.any (fun sk => strContains f.path sk) = false →
      d.config_glob.length ≤ 20 → f ∈ _find_config_files d) ∧
    (f ∈ entry_point_glob_matches L ↔
      f ∈ L.take 3 ∧ skip_dirs.any (fun sk => strContains f.path sk) = false) := by
  refine ⟨?_, ?_, ?_⟩
  · intro hf
    have h1 : f ∈ d.config_glob.filter
        (fun g => !(skip_dirs.any (fun sk => strContains g.path sk))) :=
      List.mem_of_mem_take hf
    have h2 := List.mem_filter.mp h1
    exact ⟨h2.1, by simpa using h2.2⟩
  · intro hmem hskip hlen
    have h1 : f ∈ d.config_glob.filter
        (fun g => !(skip_dirs.any (fun sk => strContains g.path sk))) :=
      List.mem_filter.mpr ⟨hmem, by simp [hskip]⟩
    unfold _find_config_files
    rw [List.take_of_length_le (Nat.le_trans (List.length_filter_le _ _) hlen)]
    exact h1
  · unfold entry_point_glob_matches
    rw [List.mem_filter]
    constructor
    · rintro ⟨h1, h2⟩
      exact ⟨h1, by simpa using h2⟩
    · rintro ⟨h1, h2⟩
      exact ⟨h1, by simp [h2]⟩

/-- C7 (amended) witness: a clean-path config file is located. -/
theorem c7_amended_witness :
    c7wFile ∈ c7wData.config_glob ∧
    skip_dirs.any (fun sk => strContains c7wFile.path sk) = false ∧
    c7wFile ∈ _find_config_files c7wData :=
  ⟨by decide, by decide,
    (c7_amended c7wData [] c7wFile).2.1 (by decide) (by decide) (by decide)⟩

/-- C7 counterexample: `/r/renv/app.config` has no ancestor directory name
in `skip_dirs` (they are `""`, `"r"`, `"renv"`) and its extension
`.config` is not in `skip_extensions`, yet the config locator drops it
because `"env"` occurs as a substring of the path string — refuting the
claimed iff. -/
theorem c7_counterexample :
    (ancestorDirNames c7File.path).all (fun dn => !(skip_dirs.contains dn)) = true ∧
    skip_extensions.contains c7File.suffix = false ∧
    c7File ∈ c7Data.config_glob ∧
    c7File ∉ _find_config_files c7Data := by
  refine ⟨by decide, by decide, by decide, by decide⟩

/-- C8: the fixed per-category candidate caps hold — at most 30
terraform-like files, at most 15 policy-like files, at most 20 (in fact 10)
generic configuration files are iterated by the assembly loops, and the
source-sample groups are drawn from the first 2 detected project types with
at most 3 files per pattern group. -/
theorem c8_candidate_caps (d : RepoData) :
    (_find_terraform_files d).length ≤ 30 ∧
    (_find_policy_files d).length ≤ 15 ∧
    ((_find_config_files d).take 10).length ≤ 20 ∧
    (sampleCandidates d).all (fun g => decide (g.length ≤ 3)) = true ∧
    sampleCandidates d = sampleCandidates { d with project_types := d.project_types.take 2 } := by
  refine ⟨List.length_take_le _ _, List.length_take_le _ _,
    Nat.le_trans (List.length_take_le _ _) (by omega), ?_, ?_⟩
  · rw [List.all_eq_true]
    intro g hg
    rcases List.mem_flatMap.mp hg with ⟨t, -, hgt⟩
    rcases hsp : source_patterns.lookup t with _ | pats
    · rw [hsp] at hgt
      simp at hgt
    · rw [hsp] at hgt
      simp only at hgt
      rcases List.mem_map.mp hgt with ⟨p, -, hp⟩
      rw [decide_eq_true_eq, ← hp]
      exact List.length_take_le _ _
  · simp only [sampleCandidates, sampleGroupFiles]
    rw [List.take_take]
    norm_num

set_option maxRecDepth 1000000 in
/-- C1 counterexample: with `maxDocumentSize = 10` and a repository with no
candidate files at all — so no fragment is ever checked or accepted and the
claim's single-fragment overshoot term is zero — the final artifact is
still far longer than `maxDocumentSize` plus the footer, because the header
and the metadata sections are emitted without any budget check. -/
theorem c1_counterexample :
    (generate_output 10 10000 cx1Data "2024-01-01 00:00:00").length >
      10 + (footerText
        (generate_context 10 10000 cx1Data "2024-01-01 00:00:00").total_size).length ∧
    ((generate_context 10 10000 cx1Data "2024-01-01 00:00:00").context_parts.all
      (fun p => !(listStartsWith p.data ("\n### ".data)))) = true := by
  refine ⟨by decide, by decide⟩

set_option maxRecDepth 1000000 in
/-- C2 counterexample: with `maxDocumentSize = 1000`, the Key Files loop
appends its omitted notice at the first pattern (`total_size = 860 > 800`)
and the run reaches the terraform gate at `total_size = 860` — past the
terraform checkpoint (`0.85 × 1000 = 850`) with a non-empty terraform
candidate list — yet a fragment of the lower-priority Configuration Files
category (`setup.cfg`) still appears in the output, and it appears AFTER
the notice: the assembly does not terminate for the remaining categories
once a checkpoint is exceeded, refuting the claimed cascade. -/
theorem c2_counterexample :
    _find_terraform_files cx2Data ≠ [] ∧
    ¬ 20 * (keyFilesPhase 1000 10000 cx2Data
        (sectionsPhase cx2Data
          { total_size := 0, context_parts := [mkHeader cx2Data "TS"] })).total_size <
      17 * 1000 ∧
    ((generate_context 1000 10000 cx2Data "TS").context_parts.contains
      "\n### setup.cfg\n") = true ∧
    (((generate_context 1000 10000 cx2Data "TS").context_parts.dropWhile
        (fun p => !(p == sizeNotice))).contains "\n### setup.cfg\n") = true := by
  refine ⟨by decide, by decide, by decide, by decide⟩

set_option maxRecDepth 100000 in
/-- C6 counterexample: a full run over an empty repository accepts no file
fragment at all (no context part carries the `### ` fragment header), yet
the counter ends at 36, incremented by the Project Structure section
(17 + 10) and the Key Files section header (9) through `add_section` —
refuting "not incremented by anything other than accepted fragments". -/
theorem c6_counterexample :
    ((generate_context 10 10000 c6Data "TS").context_parts.all
      (fun p => !(listStartsWith p.data ("\n### ".data)))) = true ∧
    (generate_context 10 10000 c6Data "TS").total_size = 36 := by
  refine ⟨by decide, by decide⟩
